import Mathlib

set_option maxRecDepth 4000

/-!
Shallow embedding of the VoiceReminderService frontend
(`frontend/src/components/ReminderNotifications.jsx`,
`frontend/src/pages/CreateReminder.jsx`, `frontend/src/pages/Dashboard.jsx`,
the `Reminders` page) together with the reminder store claim operation,
which is described by the specification but whose backend source is not
part of the frontend tree.
-/

/-- Reminder status values of the data model
(status of a reminder: scheduled, processing, called, failed). -/
inductive RStatus where
  | scheduled
  | processing
  | called
  | failed
  deriving DecidableEq

/-- The fields of a reminder that the claim operation reads:
its current status and its due time (`scheduled_at`, as epoch seconds). -/
structure Reminder where
  status : RStatus
  scheduled_at : Nat
  deriving DecidableEq

/-- Modelled from the spec: the Reminder Store's atomic claim update.
The backend store code is not in the frontend sources; the spec states
"an atomic conditional transition scheduled→processing; the transition
succeeds only if the reminder's current status is still scheduled
(compare-and-set at the store)" and "set status=processing where
status=scheduled, returning whether a row changed". -/
def casClaim (r : Reminder) : Reminder × Bool :=
  if r.status = RStatus.scheduled then ({ r with status := RStatus.processing }, true)
  else (r, false)

/-- Modelled from the spec: `n` claim attempts on the same reminder.
Each attempt is atomic at the store, so any concurrent schedule of
`n` attempts is observationally one of the sequential orders; as all
attempts run the identical conditional update, every order is this one.
Returns the final reminder and the list of per-attempt results. -/
def runClaims (r : Reminder) : Nat → Reminder × List Bool
  | 0 => (r, [])
  | n + 1 =>
      let p := casClaim r
      let q := runClaims p.1 n
      (q.1, p.2 :: q.2)

/-- The `latest_log` object of a feed notification
(its `status`, optional `transcript`, `received_at`). -/
structure LatestLog where
  status : String
  transcript : Option String
  received_at : String
  deriving DecidableEq

/-- One notification of the feed response, as read by
`ReminderNotifications.checkForUpdates`. -/
structure Notification where
  reminder_id : String
  user_id : String
  phone_number : String
  message : String
  status : String
  updated_at : String
  latest_log : Option LatestLog
  deriving DecidableEq

/-- The duplicate-suppression key built in `checkForUpdates`:
the template string `reminder_id-status-updated_at`. -/
def notifId (n : Notification) : String :=
  n.reminder_id ++ "-" ++ n.status ++ "-" ++ n.updated_at

/-- The kind of toast emitted (`toast.loading`, `toast.success`,
`toast.error`, plain `toast`). -/
inductive ToastKind where
  | loading
  | success
  | error
  | plain
  deriving DecidableEq

/-- An emitted toast call: its kind and message text. -/
structure Toast where
  kind : ToastKind
  text : String
  deriving DecidableEq

/-- The toast calls that the `switch (notification.status)` block of
`checkForUpdates` makes for one notification: a loading toast for
`processing`, a success toast (plus a transcript toast when
`latest_log?.transcript` is present) for `called`, an error toast for
`failed`, and nothing for `scheduled` or an unrecognized status.
The text truncates the message as `message.substring(0, 50)`. -/
def toastsFor (n : Notification) : List Toast :=
  let message := n.message.take 50
  if n.status = "processing" then
    [⟨ToastKind.loading, "📞 Calling: " ++ message ++ "..."⟩]
  else if n.status = "called" then
    ⟨ToastKind.success, "✅ Call completed: " ++ message⟩ ::
      (match n.latest_log with
       | some log =>
           match log.transcript with
           | some t => [⟨ToastKind.plain, t⟩]
           | none => []
       | none => [])
  else if n.status = "failed" then
    [⟨ToastKind.error, "❌ Call failed: " ++ message⟩]
  else []

/-- Insertion into the processed-ids set,
`new Set([...prev, notifId])`: a no-op when the key is present,
otherwise appended (JS sets iterate in insertion order). -/
def insertId (s : List String) (k : String) : List String :=
  if k ∈ s then s else s ++ [k]

/-- One iteration of the `forEach` body of `checkForUpdates`. The skip
test `processedIds.has(notifId)` reads `processedIds`, the state
snapshot captured by the `useCallback` closure at the start of the poll
round — not the accumulated updates queued during this round. -/
def cfuStep (processedIds : List String) (acc : List String × List Toast)
    (n : Notification) : List String × List Toast :=
  if notifId n ∈ processedIds then acc
  else (insertId acc.1 (notifId n), acc.2 ++ toastsFor n)

/-- The pure core of one `checkForUpdates` poll round: process the
fetched notifications in order against the snapshot `processedIds`,
returning the updated processed-ids set and the toast calls made. -/
def checkForUpdates (processedIds : List String)
    (notifications : List Notification) : List String × List Toast :=
  notifications.foldl (cfuStep processedIds) (processedIds, [])

/-- The cleanup effect on the processed-ids set: when
`processedIds.size > 100`, keep `Array.from(processedIds).slice(-100)`,
the 100 most recently inserted keys. -/
def trimProcessed (s : List String) : List String :=
  if 100 < s.length then s.drop (s.length - 100) else s

/-- The polling period of `ReminderNotifications` in milliseconds. -/
def POLL_INTERVAL : Nat := 5000

/-- The window requested on every poll:
`/api/reminders/notifications/recent?since_seconds=10`. -/
def SINCE_SECONDS : Nat := 10

/-- The form state of the Create Reminder page. -/
structure FormData where
  user_id : String
  phone_number : String
  message : String
  scheduled_date : String
  scheduled_time : String
  deriving DecidableEq

/-- The `newErrors` object built by `validateForm`
(a field is `some msg` when that error message is recorded). -/
structure FormErrors where
  user_id : Option String
  phone_number : Option String
  message : Option String
  scheduled_date : Option String
  scheduled_time : Option String
  deriving DecidableEq

/-- The test of the regular expression `^\+\d{10,15}$` on a string:
a leading plus character followed by 10 to 15 ASCII digits and
nothing else. -/
def testPhoneRegex (p : String) : Bool :=
  match p.data with
  | [] => false
  | c :: rest =>
      c == '+' && rest.all Char.isDigit &&
        decide (10 ≤ rest.length) && decide (rest.length ≤ 15)

/-- The JavaScript `String.prototype.trim()`: the string with
whitespace removed from both ends, written over the character list. -/
def jsTrim (s : String) : String :=
  ⟨((s.data.dropWhile Char.isWhitespace).reverse.dropWhile Char.isWhitespace).reverse⟩

/-- `validateForm` of the Create Reminder page. `scheduledAt` is the
timestamp of `new Date(scheduled_date + T + scheduled_time)` and `now`
that of `new Date()` at validation; the comparison is only reached when
both the date and the time fields are non-empty, and its error
overwrites the `scheduled_date` slot (which is otherwise `Date is
required` exactly when the date field is empty). -/
def validateForm (f : FormData) (scheduledAt now : Int) : FormErrors :=
  { user_id := if f.user_id = "" then some "Please select a user" else none
    phone_number :=
      if f.phone_number = "" then some "Phone number is required"
      else if testPhoneRegex f.phone_number then none
      else some "Use international format: +1234567890"
    message :=
      if jsTrim f.message = "" then some "Message is required"
      else if f.message.length < 5 then some "Message must be at least 5 characters"
      else none
    scheduled_date :=
      if f.scheduled_date ≠ "" ∧ f.scheduled_time ≠ "" ∧ scheduledAt ≤ now then
        some "Scheduled time must be in the future"
      else if f.scheduled_date = "" then some "Date is required"
      else none
    scheduled_time := if f.scheduled_time = "" then some "Time is required" else none }

/-- The phone-number shape in the words of the spec: a leading plus sign
followed by 10 to 15 digits. -/
def specPhoneOk (p : String) : Prop :=
  ∃ ds : List Char, p.data = '+' :: ds ∧ (∀ c ∈ ds, c.isDigit) ∧
    10 ≤ ds.length ∧ ds.length ≤ 15

/-- The badge configuration selected by `StatusBadge`
(icon component name, css class, label). -/
structure BadgeConfig where
  icon : String
  cls : String
  label : String
  deriving DecidableEq

/-- The value categories of the ECMAScript member access
`config[status]` on the `StatusBadge` object literal: an own entry of
the literal, a truthy member inherited from `Object.prototype` (such
as `toString`), or `undefined`. -/
inductive JsLookup where
  | own (c : BadgeConfig)
  | inherited
  | undefined
  deriving DecidableEq

/-- The property names a plain object literal inherits from
`Object.prototype`; accessing any of them yields a truthy value (a
built-in function, or the prototype object itself for `__proto__`). -/
def protoProps : List String :=
  ["constructor", "hasOwnProperty", "isPrototypeOf", "propertyIsEnumerable",
   "toLocaleString", "toString", "valueOf", "__proto__",
   "__defineGetter__", "__defineSetter__", "__lookupGetter__", "__lookupSetter__"]

/-- The member access `config[status]` of `StatusBadge` (identical in
the Dashboard and Reminders pages): the four own entries of the
literal first, then the prototype chain — a truthy inherited member
for an `Object.prototype` property name — and otherwise `undefined`. -/
def badgeConfigLookup (status : String) : JsLookup :=
  if status = "scheduled" then .own ⟨"Clock", "status-scheduled", "Scheduled"⟩
  else if status = "processing" then .own ⟨"Loader2", "status-processing", "Processing"⟩
  else if status = "called" then .own ⟨"CheckCircle", "status-called", "Called"⟩
  else if status = "failed" then .own ⟨"XCircle", "status-failed", "Failed"⟩
  else if status ∈ protoProps then .inherited
  else .undefined

/-- `config[status] || config.scheduled` followed by the destructuring
and rendering of `StatusBadge`: an own entry renders that badge; a
falsy lookup (`undefined`) takes the fallback and renders the
scheduled badge; a truthy inherited member suppresses the fallback,
the destructured `icon` and `label` come out `undefined`, and
rendering the `undefined` element type throws — modelled as `none`. -/
def statusBadge (status : String) : Option BadgeConfig :=
  match badgeConfigLookup status with
  | .own c => some c
  | .inherited => none
  | .undefined => some ⟨"Clock", "status-scheduled", "Scheduled"⟩

/-- The stats object the Dashboard reads (counts per status). -/
structure Stats where
  total : Nat
  scheduled : Nat
  processing : Nat
  called : Nat
  failed : Nat
  deriving DecidableEq

/-- `Math.round(num / den)` for natural `num` and positive `den`:
round half toward positive infinity. -/
def jsRound (num den : Nat) : Nat := (2 * num + den) / (2 * den)

/-- The Dashboard success-rate expression
`stats?.total > 0 ? Math.round((stats.called / stats.total) * 100) : 0`:
`stats` may be absent (`null` state before data arrives). -/
def successRate (stats : Option Stats) : Nat :=
  match stats with
  | none => 0
  | some s => if 0 < s.total then jsRound (100 * s.called) s.total else 0

/-- A concrete feed notification in status `processing`,
used for evaluating the duplicate-suppression behaviour. -/
def dupNotif : Notification :=
  ⟨"r1", "u1", "+15551234567", "Take your pill", "processing", "t1", none⟩

/-- A concrete feed notification in status `scheduled`. -/
def schedNotif : Notification :=
  ⟨"r2", "u2", "+15550000000", "Water the plants", "scheduled", "t2", none⟩

/-- A concrete form whose message is non-empty after trimming but
shorter than 5 characters. -/
def shortMsgForm : FormData :=
  ⟨"u1", "+1234567890", "ab", "2099-01-01", "09:00"⟩

/-! ## Helper lemmas -/

theorem runClaims_of_ne :
    ∀ (n : Nat) (r : Reminder), r.status ≠ RStatus.scheduled →
      (runClaims r n).2 = List.replicate n false
  | 0, _, _ => rfl
  | n + 1, r, h => by
      simp [runClaims, casClaim, h, runClaims_of_ne n r h, List.replicate_succ]

theorem mem_insertId (s : List String) (k : String) : k ∈ insertId s k := by
  unfold insertId
  split
  · assumption
  · simp

theorem insertId_subset (s : List String) (k : String) : s ⊆ insertId s k := by
  unfold insertId
  split
  · exact List.Subset.refl _
  · exact List.subset_append_left _ _

theorem cfuStep_fst_subset (pid : List String) (acc : List String × List Toast)
    (n : Notification) : acc.1 ⊆ (cfuStep pid acc n).1 := by
  unfold cfuStep
  split
  · exact List.Subset.refl _
  · exact insertId_subset _ _

theorem foldl_cfuStep_fst_subset (pid : List String) :
    ∀ (b : List Notification) (acc : List String × List Toast),
      acc.1 ⊆ (b.foldl (cfuStep pid) acc).1
  | [], _ => List.Subset.refl _
  | n :: b, acc =>
      (cfuStep_fst_subset pid acc n).trans (foldl_cfuStep_fst_subset pid b _)

theorem mem_foldl_cfuStep_fst (pid : List String) :
    ∀ (b : List Notification) (acc : List String × List Toast),
      pid ⊆ acc.1 → ∀ n ∈ b, notifId n ∈ (b.foldl (cfuStep pid) acc).1 := by
  intro b
  induction b with
  | nil => intro acc _ n hn; cases hn
  | cons m rest ih =>
      intro acc hsub n hn
      rcases List.mem_cons.mp hn with rfl | hn
      · refine foldl_cfuStep_fst_subset pid rest _ ?_
        unfold cfuStep
        split
        · next hmem => exact hsub hmem
        · exact mem_insertId _ _
      · exact ih _ (hsub.trans (cfuStep_fst_subset pid acc m)) n hn

theorem foldl_cfuStep_skip (pid : List String) (acc : List String × List Toast)
    (n : Notification) (hn : notifId n ∈ pid) (b : List Notification) :
    List.foldl (cfuStep pid) acc (n :: b) = List.foldl (cfuStep pid) acc b := by
  simp [List.foldl, cfuStep, hn]

theorem testPhoneRegex_iff (p : String) : testPhoneRegex p = true ↔ specPhoneOk p := by
  rcases hd : p.data with _ | ⟨c, rest⟩
  · constructor
    · intro h; simp [testPhoneRegex, hd] at h
    · rintro ⟨ds, hds, -⟩
      rw [hd] at hds
      cases hds
  · simp only [testPhoneRegex, hd, Bool.and_eq_true, beq_iff_eq, List.all_eq_true,
      decide_eq_true_iff, specPhoneOk]
    constructor
    · rintro ⟨⟨⟨rfl, hdig⟩, h10⟩, h15⟩
      exact ⟨rest, rfl, hdig, h10, h15⟩
    · rintro ⟨ds, hds, hdig, h10, h15⟩
      obtain ⟨rfl, rfl⟩ : c = '+' ∧ rest = ds := by
        injection hds with h1 h2
        exact ⟨h1, h2⟩
      exact ⟨⟨⟨rfl, hdig⟩, h10⟩, h15⟩

/-! ## Claim theorems -/

/-- C1: for a reminder with status=scheduled and scheduled_at ≤ now,
under `n` concurrent claim attempts (each an atomic compare-and-set
scheduled→processing, so any concurrent schedule is a sequential order
of the attempts) exactly one attempt succeeds and the remaining
`n - 1` observe failure. -/
theorem claim_exactly_once (r : Reminder) (n now : Nat)
    (hs : r.status = RStatus.scheduled) (_hdue : r.scheduled_at ≤ now) (hn : 1 ≤ n) :
    (runClaims r n).2.count true = 1 ∧ (runClaims r n).2.count false = n - 1 := by
  obtain ⟨m, rfl⟩ : ∃ m, n = m + 1 := ⟨n - 1, (Nat.succ_pred_eq_of_pos hn).symm⟩
  have h2 : ({ r with status := RStatus.processing } : Reminder).status ≠ RStatus.scheduled := by
    simp
  simp [runClaims, casClaim, hs, runClaims_of_ne m _ h2, List.count_replicate,
    List.count_cons]

/-- C1 witness: two claim attempts on a due scheduled reminder:
one success, one failure. -/
theorem claim_exactly_once_concrete :
    (runClaims ⟨RStatus.scheduled, 5⟩ 2).2.count true = 1 ∧
      (runClaims ⟨RStatus.scheduled, 5⟩ 2).2.count false = 1 :=
  ⟨(claim_exactly_once ⟨RStatus.scheduled, 5⟩ 2 7 rfl (by decide) (by decide)).1,
   (claim_exactly_once ⟨RStatus.scheduled, 5⟩ 2 7 rfl (by decide) (by decide)).2⟩

/-- C2 counterexample: the skip test reads the state snapshot of the
round, so two notifications with an identical
(reminder_id, status, updated_at) triple arriving in the same poll
round both pass the check and two toasts are emitted — not at most
one as the claim states. -/
theorem dedup_within_round_fails :
    (checkForUpdates [] [dupNotif, dupNotif]).2.length = 2 := by decide

/-- C2 (amended): duplicate suppression keyed by
(reminder_id, status, updated_at) holds across poll rounds: a
notification whose key was processed in an earlier round is skipped
entirely in a later round (no toast, no state change), and a
notification whose key is not in the snapshot is processed — its key
is recorded and its toasts are emitted. -/
theorem dedup_across_polls :
    (∀ (pid : List String) (b1 bL bR : List Notification) (n1 n2 : Notification),
        n1 ∈ b1 → notifId n2 = notifId n1 →
        checkForUpdates (checkForUpdates pid b1).1 (bL ++ n2 :: bR) =
          checkForUpdates (checkForUpdates pid b1).1 (bL ++ bR)) ∧
    (∀ (pid : List String) (n : Notification), notifId n ∉ pid →
        checkForUpdates pid [n] = (pid ++ [notifId n], toastsFor n)) := by
  constructor
  · intro pid b1 bL bR n1 n2 hmem heq
    have hkey : notifId n2 ∈ (checkForUpdates pid b1).1 := by
      rw [heq]
      exact mem_foldl_cfuStep_fst pid b1 (pid, []) (List.Subset.refl _) n1 hmem
    unfold checkForUpdates at hkey ⊢
    rw [List.foldl_append, List.foldl_append, foldl_cfuStep_skip _ _ _ hkey]
  · intro pid n hn
    simp [checkForUpdates, cfuStep, insertId, hn]

/-- C2 witness: a key processed in round one is skipped in round two,
and an unseen notification is processed with its toasts. -/
theorem dedup_across_polls_concrete :
    checkForUpdates (checkForUpdates [] [dupNotif]).1 [dupNotif] =
        checkForUpdates (checkForUpdates [] [dupNotif]).1 [] ∧
      checkForUpdates [] [dupNotif] = ([] ++ [notifId dupNotif], toastsFor dupNotif) :=
  ⟨dedup_across_polls.1 [] [dupNotif] [] [] dupNotif dupNotif (by simp) rfl,
   dedup_across_polls.2 [] dupNotif (by simp)⟩

/-- C3: after a poll round followed by the cleanup effect, the
processed-ids set holds at most 100 keys; the trimmed set is a suffix
of the insertion-ordered set (the most recently inserted keys, oldest
dropped first), and when the bound was exceeded exactly 100 remain. -/
theorem trim_bounded (pid : List String) (b : List Notification) :
    (trimProcessed (checkForUpdates pid b).1).length ≤ 100 ∧
      List.IsSuffix (trimProcessed (checkForUpdates pid b).1) (checkForUpdates pid b).1 ∧
      (100 < (checkForUpdates pid b).1.length →
        (trimProcessed (checkForUpdates pid b).1).length = 100) := by
  set s := (checkForUpdates pid b).1 with hs
  unfold trimProcessed
  by_cases h : 100 < s.length
  · rw [if_pos h]
    refine ⟨?_, List.drop_suffix _ _, fun _ => ?_⟩ <;> simp <;> omega
  · rw [if_neg h]
    exact ⟨by omega, List.suffix_refl _, fun hc => absurd hc h⟩

/-- C3 witness: a 101-key set after a poll round with no new
notifications is trimmed to exactly 100 keys. -/
theorem trim_bounded_concrete :
    (trimProcessed (checkForUpdates (List.replicate 101 "k") []).1).length = 100 :=
  (trim_bounded (List.replicate 101 "k") []).2.2 (by decide)

/-- C4 counterexample: the message "ab" is non-empty after trimming
(and within any length bound), yet `validateForm` records a message
error, because the code additionally requires at least 5 characters. -/
theorem message_nonempty_not_sufficient :
    jsTrim shortMsgForm.message ≠ "" ∧
      (validateForm shortMsgForm 100 0).message =
        some "Message must be at least 5 characters" := by decide

/-- C4 (amended): `validateForm` records no message error exactly for
messages that are non-empty after trimming and at least 5 characters
long; here the accepting direction: every such message passes. -/
theorem message_accepted (f : FormData) (sAt now : Int)
    (h1 : jsTrim f.message ≠ "") (h2 : 5 ≤ f.message.length) :
    (validateForm f sAt now).message = none := by
  simp [validateForm, h1, Nat.not_lt.mpr h2]

/-- C4 witness: a five-character message passes validation. -/
theorem message_accepted_concrete :
    (validateForm ⟨"u1", "+1234567890", "hello", "2099-01-01", "09:00"⟩ 100 0).message = none :=
  message_accepted ⟨"u1", "+1234567890", "hello", "2099-01-01", "09:00"⟩ 100 0
    (by decide) (by decide)

/-- C5: `validateForm` records no phone_number error exactly when the
field consists of a leading plus sign followed by 10 to 15 digits
(every other string, the empty one included, is rejected, so the form
is not submitted). -/
theorem phone_validation_iff (f : FormData) (sAt now : Int) :
    (validateForm f sAt now).phone_number = none ↔ specPhoneOk f.phone_number := by
  have hre := testPhoneRegex_iff f.phone_number
  by_cases h0 : f.phone_number = ""
  · constructor
    · intro hnone
      simp [validateForm, h0] at hnone
    · rintro ⟨ds, hds, -⟩
      rw [h0] at hds
      have hnil : ("" : String).data = [] := rfl
      rw [hnil] at hds
      cases hds
  · by_cases h1 : testPhoneRegex f.phone_number
    · simp [validateForm, h0, h1, hre.mp h1]
    · rw [← hre]
      simp [validateForm, h0, h1]

/-- C5 witness: "+1234567890" has the spec shape and is accepted. -/
theorem phone_validation_iff_concrete :
    specPhoneOk "+1234567890" ∧
      (validateForm ⟨"u1", "+1234567890", "hello", "d", "t"⟩ 5 0).phone_number = none :=
  have hs : specPhoneOk "+1234567890" :=
    ⟨['1', '2', '3', '4', '5', '6', '7', '8', '9', '0'],
      by decide, by decide, by decide, by decide⟩
  ⟨hs, (phone_validation_iff ⟨"u1", "+1234567890", "hello", "d", "t"⟩ 5 0).mpr hs⟩

/-- C6: with both date and time fields filled, `validateForm` records
the scheduled_date error "Scheduled time must be in the future"
whenever the combined timestamp is at or before the current time, and
records no scheduled_date error whenever it is strictly in the
future. -/
theorem future_check (f : FormData) (sAt now : Int)
    (hd : f.scheduled_date ≠ "") (ht : f.scheduled_time ≠ "") :
    (sAt ≤ now →
        (validateForm f sAt now).scheduled_date =
          some "Scheduled time must be in the future") ∧
      (now < sAt → (validateForm f sAt now).scheduled_date = none) := by
  constructor
  · intro hle
    simp [validateForm, hd, ht, hle]
  · intro hlt
    simp [validateForm, hd, ht, not_le.mpr hlt]

/-- C6 witness: a past timestamp is rejected and a future one
accepted on a filled-in form. -/
theorem future_check_concrete :
    (validateForm ⟨"u1", "+1234567890", "hello", "2025-01-01", "09:00"⟩ 5 10).scheduled_date =
        some "Scheduled time must be in the future" ∧
      (validateForm ⟨"u1", "+1234567890", "hello", "2025-01-01", "09:00"⟩ 10 5).scheduled_date =
        none :=
  ⟨(future_check ⟨"u1", "+1234567890", "hello", "2025-01-01", "09:00"⟩ 5 10
      (by decide) (by decide)).1 (by decide),
   (future_check ⟨"u1", "+1234567890", "hello", "2025-01-01", "09:00"⟩ 10 5
      (by decide) (by decide)).2 (by decide)⟩

/-- C7: the consumer polls every P = POLL_INTERVAL = 5000 ms and every
poll requests since_seconds = 10, so the window W = 10 s satisfies
W ≥ P (in seconds) plus a slack of 5 seconds. -/
theorem poll_window_slack :
    POLL_INTERVAL = 5000 ∧ SINCE_SECONDS = 10 ∧
      POLL_INTERVAL / 1000 + 5 ≤ SINCE_SECONDS := by decide

/-- C8: for a notification whose status is neither processing nor
called nor failed (scheduled or unrecognized), a poll round emits no
toast, while the notification's key is still added to the processed
set. -/
theorem silent_statuses (pid : List String) (n : Notification)
    (h1 : n.status ≠ "processing") (h2 : n.status ≠ "called") (h3 : n.status ≠ "failed")
    (h4 : notifId n ∉ pid) :
    checkForUpdates pid [n] = (pid ++ [notifId n], []) := by
  have ht : toastsFor n = [] := by
    simp [toastsFor, h1, h2, h3]
  simp [checkForUpdates, cfuStep, insertId, h4, ht]

/-- C8 witness: a scheduled-status notification produces no toast but
its key is recorded. -/
theorem silent_statuses_concrete :
    checkForUpdates [] [schedNotif] = ([] ++ [notifId schedNotif], []) :=
  silent_statuses [] schedNotif (by decide) (by decide) (by decide) (by decide)

/-- C9 counterexample: the status "toString" lies outside the four
known statuses, yet the lookup finds the truthy inherited
`Object.prototype.toString`, the `||` fallback is not taken, and
rendering fails instead of showing the Scheduled badge. -/
theorem badge_proto_lookup_fails :
    ("toString" ≠ "scheduled" ∧ "toString" ≠ "processing" ∧
      "toString" ≠ "called" ∧ "toString" ≠ "failed") ∧
      statusBadge "toString" = none := by decide

/-- C9 (amended): for a status outside the four known ones, rendering
falls back to the Scheduled badge exactly when the status is not an
inherited `Object.prototype` property name; for such a property name
the truthy inherited member suppresses the fallback and rendering
fails. -/
theorem badge_fallback_cases :
    (∀ s : String, s ≠ "scheduled" → s ≠ "processing" → s ≠ "called" → s ≠ "failed" →
        s ∉ protoProps →
        statusBadge s = some ⟨"Clock", "status-scheduled", "Scheduled"⟩) ∧
    (∀ s : String, s ∈ protoProps → statusBadge s = none) := by
  constructor
  · intro s h1 h2 h3 h4 h5
    simp [statusBadge, badgeConfigLookup, h1, h2, h3, h4, h5]
  · intro s h5
    fin_cases h5 <;> decide

/-- C9 witness: the unknown status "bogus" renders the Scheduled badge
and the inherited-property status "valueOf" fails to render. -/
theorem badge_fallback_cases_concrete :
    statusBadge "bogus" = some ⟨"Clock", "status-scheduled", "Scheduled"⟩ ∧
      statusBadge "valueOf" = none :=
  ⟨badge_fallback_cases.1 "bogus" (by decide) (by decide) (by decide) (by decide) (by decide),
   badge_fallback_cases.2 "valueOf" (by decide)⟩

/-- C10: the Dashboard success rate is 0 when stats is absent or
total is 0, and otherwise is the half-up rounding of
100 * called / total (characterized by the two inequalities bounding
the rounded value); the guarded expression never divides by zero. -/
theorem success_rate_safe :
    successRate none = 0 ∧
      (∀ s : Stats, s.total = 0 → successRate (some s) = 0) ∧
      (∀ s : Stats, 0 < s.total →
        successRate (some s) * (2 * s.total) ≤ 2 * (100 * s.called) + s.total ∧
          2 * (100 * s.called) + s.total < (successRate (some s) + 1) * (2 * s.total)) := by
  refine ⟨rfl, ?_, ?_⟩
  · intro s h
    simp [successRate, h]
  · intro s h
    have hpos : 0 < 2 * s.total := by omega
    simp only [successRate, jsRound, if_pos h]
    set a := 2 * (100 * s.called) + s.total with ha
    have hdm := Nat.div_add_mod a (2 * s.total)
    have hmod := Nat.mod_lt a hpos
    constructor
    · exact Nat.div_mul_le_self a (2 * s.total)
    · calc a = 2 * s.total * (a / (2 * s.total)) + a % (2 * s.total) := hdm.symm
        _ < 2 * s.total * (a / (2 * s.total)) + 2 * s.total := Nat.add_lt_add_left hmod _
        _ = (a / (2 * s.total) + 1) * (2 * s.total) := by ring

/-- C10 witness: zero total displays 0; with total 3 and called 2 the
displayed value satisfies the rounding bounds. -/
theorem success_rate_safe_concrete :
    successRate (some ⟨0, 0, 0, 0, 0⟩) = 0 ∧
      successRate (some ⟨3, 0, 0, 2, 1⟩) * (2 * 3) ≤ 2 * (100 * 2) + 3 ∧
      2 * (100 * 2) + 3 < (successRate (some ⟨3, 0, 0, 2, 1⟩) + 1) * (2 * 3) :=
  ⟨success_rate_safe.2.1 ⟨0, 0, 0, 0, 0⟩ rfl,
   (success_rate_safe.2.2 ⟨3, 0, 0, 2, 1⟩ (by decide)).1,
   (success_rate_safe.2.2 ⟨3, 0, 0, 2, 1⟩ (by decide)).2⟩
